import Mathlib

/-!
Verification development for the Enterprise-Database-Migration introspection core.

The Python sources `src/src/agents/introspection_1.py` (eleven-method workers for the
MySQL and SQL Server engine families plus the `IntrospectionAgent` scan coordinator)
and `src/src/agents/introspection.py` (an earlier five-method MySQL-only phase) are
shallowly embedded below.  The embedding conventions are:

* A Python `dict` is a `Dict α := List (String × α)` built with `dinsert`, which
  reproduces CPython assignment semantics: assigning an existing key overwrites the
  value in place, a new key is appended at the end.
* The caller-supplied SQLAlchemy engine/inspector pair (the spec's `MetadataSource`)
  is a record of the reflection and raw-query capabilities each worker consumes
  (`MySQLSource`, `MSSQLSource`).  A per-object statement that may raise is modelled
  as `Except String _`, where `.error e` is a raised exception with message `e`.
* A worker method that can let an exception escape is `Except`-valued; a method that
  catches every per-object exception is total.  Printed warning lines (the SQL Server
  worker's `print` inside `get_tables` / the silent `except: pass` of `get_indexes`)
  are returned as an explicit second component.
* `PyVal` models the dynamic type of a Python value where the distinction between a
  list and a dict is itself the property under study.
-/

set_option maxHeartbeats 1000000

/-- Python `dict` with string keys, as an insertion-ordered association list. -/
abbrev Dict (α : Type) : Type := List (String × α)

/-- Python `d[k] = v`: overwrite in place if the key exists, else append. -/
def dinsert {α : Type} (k : String) (v : α) : Dict α → Dict α
  | [] => [(k, v)]
  | (k0, v0) :: rest => if k0 = k then (k, v) :: rest else (k0, v0) :: dinsert k v rest

/-- Python `d.get(k)`: the value stored at the first occurrence of the key. -/
def dlookup {α : Type} (k : String) : Dict α → Option α
  | [] => none
  | (k0, v0) :: rest => if k0 = k then some v0 else dlookup k rest

/-- Python `d.keys()` in insertion order. -/
def dkeys {α : Type} (m : Dict α) : List String := m.map Prod.fst

/-- Python `m.update(other)`: every entry of `other` assigned into `m` in order. -/
def dupdate {α : Type} (m other : Dict α) : Dict α :=
  other.foldl (fun acc kv => dinsert kv.1 kv.2 acc) m

/-- Dynamic shape of a Python value, for properties that distinguish lists from dicts. -/
inductive PyVal where
  | str : String → PyVal
  | boolv : Bool → PyVal
  | nullv : PyVal
  | arr : List PyVal → PyVal
  | obj : List (String × PyVal) → PyVal

/-- `isinstance(v, dict)`. -/
def PyVal.isMapping : PyVal → Bool
  | .obj _ => true
  | _ => false

/-- Whether a Python call returned normally (`.ok`) rather than raising. -/
def isOkB {α : Type} : Except String α → Bool
  | .ok _ => true
  | .error _ => false

theorem dlookup_dinsert {α : Type} (k q : String) (v : α) (m : Dict α) :
    dlookup q (dinsert k v m) = if k = q then some v else dlookup q m := by
  induction m with
  | nil => simp [dinsert, dlookup]
  | cons kv rest ih =>
    obtain ⟨k0, v0⟩ := kv
    by_cases h0 : k0 = k
    · subst h0
      by_cases hq : k0 = q <;> simp [dinsert, dlookup, hq]
    · by_cases hq : k0 = q
      · subst hq
        have : ¬ k = k0 := fun h => h0 h.symm
        simp [dinsert, dlookup, h0, this]
      · simp [dinsert, dlookup, h0, hq, ih]

theorem dlookup_isSome {α : Type} (q : String) (m : Dict α) :
    (dlookup q m).isSome = true ↔ q ∈ dkeys m := by
  induction m with
  | nil => simp [dlookup, dkeys]
  | cons kv rest ih =>
    obtain ⟨k0, v0⟩ := kv
    have hk : dkeys ((k0, v0) :: rest) = k0 :: dkeys rest := rfl
    rw [hk]
    by_cases h : k0 = q
    · subst h
      simp [dlookup]
    · simp only [dlookup, if_neg h, List.mem_cons]
      rw [ih]
      constructor
      · exact Or.inr
      · rintro (rfl | hm)
        · exact absurd rfl h
        · exact hm

theorem mem_dkeys_dinsert {α : Type} (q k : String) (v : α) (m : Dict α) :
    q ∈ dkeys (dinsert k v m) ↔ q = k ∨ q ∈ dkeys m := by
  rw [← dlookup_isSome, dlookup_dinsert]
  by_cases h : k = q
  · simp [h]
  · rw [if_neg h, dlookup_isSome]
    constructor
    · exact Or.inr
    · rintro (rfl | hm)
      · exact absurd rfl h
      · exact hm

theorem nodup_dkeys_dinsert {α : Type} (k : String) (v : α) (m : Dict α)
    (h : (dkeys m).Nodup) : (dkeys (dinsert k v m)).Nodup := by
  induction m with
  | nil => simp [dinsert, dkeys]
  | cons kv rest ih =>
    obtain ⟨k0, v0⟩ := kv
    simp only [dkeys, List.map_cons, List.nodup_cons] at h
    obtain ⟨hnot, hrest⟩ := h
    by_cases hk : k0 = k
    · subst hk
      have hd : dinsert k0 v ((k0, v0) :: rest) = (k0, v) :: rest := by simp [dinsert]
      rw [hd]
      simp only [dkeys, List.map_cons, List.nodup_cons]
      exact ⟨hnot, hrest⟩
    · have hd : dinsert k v ((k0, v0) :: rest) = (k0, v0) :: dinsert k v rest := by
        simp [dinsert, hk]
      rw [hd]
      simp only [dkeys, List.map_cons, List.nodup_cons]
      constructor
      · intro hmem
        rcases (mem_dkeys_dinsert k0 k v rest).mp hmem with h1 | h2
        · exact hk h1
        · exact hnot h2
      · exact ih hrest

theorem foldl_preserve {γ β : Type} (step : γ → β → γ) (P : γ → Prop)
    (h : ∀ acc b, P acc → P (step acc b)) :
    ∀ (rows : List β) (acc : γ), P acc → P (rows.foldl step acc) := by
  intro rows
  induction rows with
  | nil => intro acc hp; simpa using hp
  | cons b rs ih => intro acc hp; simpa using ih (step acc b) (h acc b hp)

theorem foldl_iff {γ β : Type} (step : γ → β → γ) (P : γ → Prop) (H : β → Prop)
    (hstep : ∀ acc b, P (step acc b) ↔ P acc ∨ H b) :
    ∀ (rows : List β) (acc : γ), P (rows.foldl step acc) ↔ P acc ∨ ∃ b ∈ rows, H b := by
  intro rows
  induction rows with
  | nil => intro acc; simp
  | cons b rs ih =>
    intro acc
    rw [List.foldl_cons, ih (step acc b), hstep]
    constructor
    · rintro ((hp | hb) | ⟨b2, hb2, hH⟩)
      · exact Or.inl hp
      · exact Or.inr ⟨b, by simp, hb⟩
      · exact Or.inr ⟨b2, by simp [hb2], hH⟩
    · rintro (hp | ⟨b2, hb2, hH⟩)
      · exact Or.inl (Or.inl hp)
      · rcases List.mem_cons.mp hb2 with rfl | h2
        · exact Or.inl (Or.inr hH)
        · exact Or.inr ⟨b2, h2, hH⟩

theorem foldl_lookup_source {γ β α : Type} (step : γ → β → γ) (proj : γ → Dict α)
    (Q : β → String → α → Prop)
    (hstep : ∀ acc b k d, dlookup k (proj (step acc b)) = some d →
      Q b k d ∨ dlookup k (proj acc) = some d) :
    ∀ (rows : List β) (acc : γ) (k : String) (d : α),
      dlookup k (proj (rows.foldl step acc)) = some d →
      (∃ b ∈ rows, Q b k d) ∨ dlookup k (proj acc) = some d := by
  intro rows
  induction rows with
  | nil => intro acc k d h; exact Or.inr (by simpa using h)
  | cons b rs ih =>
    intro acc k d h
    rw [List.foldl_cons] at h
    rcases ih (step acc b) k d h with ⟨b2, hb2, hQ⟩ | hacc
    · exact Or.inl ⟨b2, List.mem_cons_of_mem _ hb2, hQ⟩
    · rcases hstep acc b k d hacc with hQ | hacc2
      · exact Or.inl ⟨b, List.mem_cons_self _ _, hQ⟩
      · exact Or.inr hacc2

theorem dlookup_foldl_untouched {γ β α : Type} (step : γ → β → γ) (proj : γ → Dict α)
    (q : String) :
    ∀ (rows : List β),
      (∀ acc b, b ∈ rows → dlookup q (proj (step acc b)) = dlookup q (proj acc)) →
      ∀ acc, dlookup q (proj (rows.foldl step acc)) = dlookup q (proj acc) := by
  intro rows
  induction rows with
  | nil => intro _ acc; rfl
  | cons b rs ih =>
    intro hstep acc
    rw [List.foldl_cons,
      ih (fun a b2 hb => hstep a b2 (List.mem_cons_of_mem _ hb)) (step acc b),
      hstep acc b (List.mem_cons_self _ _)]

theorem foldl_dinsert_lookup_nodup {β α : Type} (keyOf : β → String) (valOf : β → α) :
    ∀ (rows : List β), (rows.map keyOf).Nodup →
    ∀ (row : β), row ∈ rows → ∀ (acc : Dict α),
      dlookup (keyOf row)
        (rows.foldl (fun acc b => dinsert (keyOf b) (valOf b) acc) acc) =
        some (valOf row) := by
  intro rows
  induction rows with
  | nil => intro _ row h; cases h
  | cons b rs ih =>
    intro hnd row hrow acc
    rw [List.map_cons, List.nodup_cons] at hnd
    obtain ⟨hnotin, hnd2⟩ := hnd
    rcases List.mem_cons.mp hrow with rfl | hmem
    · rw [List.foldl_cons]
      rw [dlookup_foldl_untouched _ (fun x => x) (keyOf row) rs ?hmiss
        (dinsert (keyOf row) (valOf row) acc)]
      · rw [dlookup_dinsert]; simp
      case hmiss =>
        intro a b2 hb
        have hne : keyOf b2 ≠ keyOf row := fun he => hnotin (he ▸ List.mem_map_of_mem keyOf hb)
        simp only [dlookup_dinsert, if_neg hne]
    · rw [List.foldl_cons]
      exact ih hnd2 row hmem _

theorem dlookup_foldl_hit {β α : Type} (step : Dict α → β → Dict α) (q : String) (w : α)
    (hit : β → Prop)
    (hhit : ∀ acc b, hit b → step acc b = dinsert q w acc)
    (hmiss : ∀ acc b, ¬ hit b → dlookup q (step acc b) = dlookup q acc)
    (rows : List β) :
    dlookup q (rows.foldl step []) = some w ↔ ∃ b ∈ rows, hit b := by
  have h := foldl_iff step (fun acc => dlookup q acc = some w) hit ?hstep rows []
  · have h2 : dlookup q (rows.foldl step []) = some w ↔
        dlookup q ([] : Dict α) = some w ∨ ∃ b ∈ rows, hit b := h
    rw [h2]
    simp [dlookup]
  case hstep =>
    intro acc b
    show dlookup q (step acc b) = some w ↔ dlookup q acc = some w ∨ hit b
    by_cases hb : hit b
    · rw [hhit acc b hb, dlookup_dinsert]
      simp [hb]
    · rw [hmiss acc b hb]
      simp [hb]

theorem mem_dkeys_dupdate {α : Type} (q : String) (m o : Dict α) :
    q ∈ dkeys (dupdate m o) ↔ q ∈ dkeys m ∨ q ∈ dkeys o := by
  induction o generalizing m with
  | nil => simp [dupdate, dkeys]
  | cons kv os ih =>
    obtain ⟨k0, v0⟩ := kv
    have hstep : dupdate m ((k0, v0) :: os) = dupdate (dinsert k0 v0 m) os := rfl
    rw [hstep, ih, mem_dkeys_dinsert]
    simp only [dkeys, List.map_cons, List.mem_cons]
    tauto

theorem dlookup_dupdate_not_mem {α : Type} (q : String) (m o : Dict α)
    (h : q ∉ dkeys o) : dlookup q (dupdate m o) = dlookup q m := by
  induction o generalizing m with
  | nil => rfl
  | cons kv os ih =>
    obtain ⟨k0, v0⟩ := kv
    simp only [dkeys, List.map_cons, List.mem_cons] at h
    push_neg at h
    obtain ⟨h1, h2⟩ := h
    have hstep : dupdate m ((k0, v0) :: os) = dupdate (dinsert k0 v0 m) os := rfl
    rw [hstep, ih _ h2, dlookup_dinsert, if_neg (fun hh => h1 hh.symm)]

theorem dlookup_dupdate_mem {α : Type} (q : String) (v : α) (m o : Dict α)
    (hnd : (dkeys o).Nodup) (h : dlookup q o = some v) :
    dlookup q (dupdate m o) = some v := by
  induction o generalizing m with
  | nil => simp [dlookup] at h
  | cons kv os ih =>
    obtain ⟨k0, v0⟩ := kv
    have hstep : dupdate m ((k0, v0) :: os) = dupdate (dinsert k0 v0 m) os := rfl
    simp only [dkeys, List.map_cons, List.nodup_cons] at hnd
    obtain ⟨hk0, hnd2⟩ := hnd
    by_cases hq : k0 = q
    · subst hq
      have hv : v0 = v := by simpa [dlookup] using h
      subst hv
      rw [hstep, dlookup_dupdate_not_mem _ _ _ hk0, dlookup_dinsert, if_pos rfl]
    · rw [hstep]
      have h2 : dlookup q os = some v := by simpa [dlookup, if_neg hq] using h
      exact ih _ hnd2 h2

theorem foldlM_except_preserve {γ β : Type} (f : γ → β → Except String γ) (P : γ → Prop)
    (hf : ∀ acc b acc2, f acc b = .ok acc2 → P acc → P acc2) :
    ∀ (rows : List β) (acc res : γ), rows.foldlM f acc = .ok res → P acc → P res := by
  intro rows
  induction rows with
  | nil =>
    intro acc res h hp
    have h2 : Except.ok acc = Except.ok res := h
    cases h2
    exact hp
  | cons b rs ih =>
    intro acc res h hp
    rw [List.foldlM_cons] at h
    rcases hfb : f acc b with e | a
    · rw [hfb] at h
      have h2 : (Except.error e : Except String γ) = Except.ok res := h
      cases h2
    · rw [hfb] at h
      have h2 : rs.foldlM f a = Except.ok res := h
      exact ih a res h2 (hf acc b a hfb hp)

/-! ### MetadataSource capabilities consumed by the MySQL-family workers

`MySQLSource` collects the reflection results and raw-statement results the two
MySQL workers read from the bound engine: the connected database name
(`engine.url.database`), the inspector's reflection lists, and the result rows of
each dialect-specific `SHOW` statement.  A statement issued once per named object
(`SHOW CREATE VIEW/PROCEDURE/FUNCTION name`) may raise, so it is `Except`-valued;
its `.ok` payload is the `fetchone()` result (`none` models a `None` row). -/

/-- One reflected column, as the inspector's `get_columns` row: name, rendered type
string, nullability. -/
structure Column where
  name : String
  type : String
  nullable : Bool

/-- One reflected foreign key, as the inspector's `get_foreign_keys` row. -/
structure FkSource where
  referred_table : String
  referred_schema : Option String
  constrained_columns : List String

/-- One reflected index, as the inspector's `get_indexes` row. -/
structure IdxSource where
  name : String
  column_names : List String
  unique : Bool

structure MySQLSource where
  database : String
  table_names : List String
  columns : String → List Column
  foreign_keys : String → List FkSource
  pk_constraint : String → Option (List String)
  table_indexes : String → List IdxSource
  view_names : List String
  show_create_view : String → Except String (Option (List String))
  procedure_status : List (List String)
  show_create_procedure : String → Except String (Option (List String))
  function_status : List (List String)
  show_create_function : String → Except String (Option (List String))
  show_triggers : List (List String)
  show_events : List (List String)

/-- Column entry of a table descriptor (`{"name": ..., "type": str(...), "nullable": ...}`). -/
structure ColumnOut where
  name : String
  type : String
  nullable : Bool

/-- Index entry (`{"name": ..., "columns": ..., "unique": ...}`). -/
structure IndexOut where
  name : String
  columns : List String
  unique : Bool

/-- A table descriptor as both workers build it.  Foreign-key records are kept as
Python dicts (`Dict PyVal`) because the two workers populate different key sets. -/
structure TableDescriptor where
  type : String
  columns : List ColumnOut
  primary_key : List String
  foreign_keys : List (Dict PyVal)

/-- The stored body for one enumerated routine: `code[2] if code else "Error"`. -/
def codeOrError (code : Option (List String)) : String :=
  match code with
  | some r => r.getD 2 ""
  | none => "Error"

/-- The foreign-key record dict built by the MySQL worker's `get_tables`:
`{"referred_table": ..., "constrained_columns": ...}`. -/
def fkRecordMySQL (fk : FkSource) : Dict PyVal :=
  [("referred_table", PyVal.str fk.referred_table),
   ("constrained_columns", PyVal.arr (fk.constrained_columns.map PyVal.str))]

/-- The foreign-key record dict built by the SQL Server worker's `get_tables`:
`{"referred_table": ..., "referred_schema": ...}` (the schema may be `None`). -/
def fkRecordMSSQL (fk : FkSource) : Dict PyVal :=
  [("referred_table", PyVal.str fk.referred_table),
   ("referred_schema",
    match fk.referred_schema with
    | some s2 => PyVal.str s2
    | none => PyVal.nullv)]

namespace introspection_1

/-- `MySQLIntrospector.get_schemas`: `return [self.engine.url.database]` — a list. -/
def MySQLIntrospector.get_schemas (src : MySQLSource) : List String :=
  [src.database]

/-- The Python dynamic value returned by `MySQLIntrospector.get_schemas`: a list of
strings, not a dict. -/
def MySQLIntrospector.get_schemas_val (src : MySQLSource) : PyVal :=
  PyVal.arr ((MySQLIntrospector.get_schemas src).map PyVal.str)

/-- `MySQLIntrospector.get_user_defined_types`: `return {}`, the source is not consulted. -/
def MySQLIntrospector.get_user_defined_types (_ : MySQLSource) : Dict String := []

/-- `MySQLIntrospector.get_sequences`: `return {}`, the source is not consulted. -/
def MySQLIntrospector.get_sequences (_ : MySQLSource) : Dict String := []

/-- `MySQLIntrospector.get_synonyms`: `return {}`, the source is not consulted. -/
def MySQLIntrospector.get_synonyms (_ : MySQLSource) : Dict String := []

/-- `MySQLIntrospector.get_tables` of `introspection_1.py`: one descriptor per
reflected table name, keyed by the bare table name. -/
def MySQLIntrospector.get_tables (src : MySQLSource) : Dict TableDescriptor :=
  src.table_names.foldl (fun acc table =>
    dinsert table
      { type := "table"
        columns := (src.columns table).map fun c =>
          { name := c.name, type := c.type, nullable := c.nullable }
        primary_key := (src.pk_constraint table).getD []
        foreign_keys := (src.foreign_keys table).map fkRecordMySQL }
      acc) []

/-- `MySQLIntrospector.get_indexes` of `introspection_1.py`. -/
def MySQLIntrospector.get_indexes (src : MySQLSource) : Dict (List IndexOut) :=
  src.table_names.foldl (fun acc table =>
    dinsert table
      ((src.table_indexes table).map fun i =>
        { name := i.name, columns := i.column_names, unique := i.unique })
      acc) []

/-- `MySQLIntrospector.get_views` of `introspection_1.py`: per-view
`SHOW CREATE VIEW` guarded by `try/except`; a raised exception stores
`"Error: {e}"` under the view's name, a `None` row stores nothing. -/
def MySQLIntrospector.get_views (src : MySQLSource) : Dict String :=
  src.view_names.foldl (fun acc view =>
    match src.show_create_view view with
    | .error e => dinsert view ("Error: " ++ e) acc
    | .ok (some r) => dinsert view (r.getD 1 "") acc
    | .ok none => acc) []

/-- `MySQLIntrospector.get_procedures` of `introspection_1.py`: enumerate via
`SHOW PROCEDURE STATUS`, then fetch each body with `SHOW CREATE PROCEDURE`.
The per-object fetch is NOT guarded, so a raised exception propagates out of the
method (hence the `Except` result); a `None` fetch row stores `"Error"`. -/
def MySQLIntrospector.get_procedures (src : MySQLSource) : Except String (Dict String) :=
  src.procedure_status.foldlM (fun acc row => do
    let name := row.getD 1 ""
    let code ← src.show_create_procedure name
    pure (dinsert name (codeOrError code) acc)) []

/-- `MySQLIntrospector.get_functions` of `introspection_1.py`: same unguarded
two-pass protocol as `get_procedures`, over `SHOW FUNCTION STATUS`. -/
def MySQLIntrospector.get_functions (src : MySQLSource) : Except String (Dict String) :=
  src.function_status.foldlM (fun acc row => do
    let name := row.getD 1 ""
    let code ← src.show_create_function name
    pure (dinsert name (codeOrError code) acc)) []

/-- `MySQLIntrospector.get_triggers` of `introspection_1.py`: each `SHOW TRIGGERS`
row yields `{"event": row[1], "table": row[2], "timing": row[4], "statement": row[3]}`
keyed by `row[0]`. -/
def MySQLIntrospector.get_triggers (src : MySQLSource) : Dict (Dict String) :=
  src.show_triggers.foldl (fun acc row =>
    dinsert (row.getD 0 "")
      [("event", row.getD 1 ""), ("table", row.getD 2 ""),
       ("timing", row.getD 4 ""), ("statement", row.getD 3 "")]
      acc) []

/-- `MySQLIntrospector.get_events` of `introspection_1.py`. -/
def MySQLIntrospector.get_events (src : MySQLSource) : Dict (Dict String) :=
  src.show_events.foldl (fun acc row =>
    dinsert (row.getD 1 "")
      [("schedule", row.getD 3 ""), ("status", row.getD 4 "")]
      acc) []

end introspection_1

/-! ### MetadataSource capabilities consumed by the SQL Server worker

The SQL Server worker iterates every reflected schema, so the reflection calls take
`(table, schema)` and — because the worker wraps them in `try/except` — are
`Except`-valued.  The system-catalog queries are listing statements whose rows are
given directly. -/

structure MSSQLSource where
  schema_names : List String
  table_names : String → List String
  columns : String → String → Except String (List Column)
  foreign_keys : String → String → Except String (List FkSource)
  pk_constraint : String → String → Except String (Option (List String))
  table_indexes : String → String → Except String (List IdxSource)
  udt_rows : List (String × Int × Int)
  sequence_rows : List (String × Int)
  sql_modules : String → List (String × String)
  job_rows : List (String × Int × String)
  synonym_rows : List (String × String)

/-- A `sys.types` descriptor (`{"length": row[1], "precision": row[2]}`). -/
structure UdtOut where
  length : Int
  precision : Int

/-- A `msdb.dbo.sysjobs` descriptor (`{"enabled": bool(row[1]), "description": row[2]}`). -/
structure JobOut where
  enabled : Bool
  description : String

namespace introspection_1

/-- `SQLServerIntrospector.get_schemas`: `return self.inspector.get_schema_names()` —
a list. -/
def SQLServerIntrospector.get_schemas (src : MSSQLSource) : List String :=
  src.schema_names

/-- The Python dynamic value returned by `SQLServerIntrospector.get_schemas`: a list
of strings, not a dict. -/
def SQLServerIntrospector.get_schemas_val (src : MSSQLSource) : PyVal :=
  PyVal.arr ((SQLServerIntrospector.get_schemas src).map PyVal.str)

/-- `SQLServerIntrospector.get_user_defined_types`: one entry per
`sys.types WHERE is_user_defined = 1` row. -/
def SQLServerIntrospector.get_user_defined_types (src : MSSQLSource) : Dict UdtOut :=
  src.udt_rows.foldl (fun acc row =>
    dinsert row.1 { length := row.2.1, precision := row.2.2 } acc) []

/-- `SQLServerIntrospector.get_sequences`: `sequences[row[0]] = row[1]` over
`sys.sequences`. -/
def SQLServerIntrospector.get_sequences (src : MSSQLSource) : Dict Int :=
  src.sequence_rows.foldl (fun acc row => dinsert row.1 row.2 acc) []

/-- The body of the `try` block of `SQLServerIntrospector.get_tables` for one
`(schema, table)` pair: the three reflection calls in program order, then the
descriptor.  `.error` is the caught per-table exception. -/
def SQLServerIntrospector.tableEntry (src : MSSQLSource) (schema_name table : String) :
    Except String TableDescriptor := do
  let cols ← src.columns table schema_name
  let fks ← src.foreign_keys table schema_name
  let pk ← src.pk_constraint table schema_name
  pure
    { type := "table"
      columns := cols.map fun c => { name := c.name, type := c.type, nullable := c.nullable }
      primary_key := pk.getD []
      foreign_keys := fks.map fkRecordMSSQL }

/-- `SQLServerIntrospector.get_tables`: iterate all schemas, keys are
`schema_name.table`; a per-table exception skips the table and prints a warning
line (second component).  The method itself never raises. -/
def SQLServerIntrospector.get_tables (src : MSSQLSource) :
    Dict TableDescriptor × List String :=
  (SQLServerIntrospector.get_schemas src).foldl (fun acc schema_name =>
    (src.table_names schema_name).foldl (fun acc table =>
      let full_name := schema_name ++ "." ++ table
      match SQLServerIntrospector.tableEntry src schema_name table with
      | .ok d => (dinsert full_name d acc.1, acc.2)
      | .error e =>
          (acc.1, acc.2 ++ ["⚠️ Warning: Could not read table " ++ full_name ++ ": " ++ e]))
      acc) ([], [])

/-- `SQLServerIntrospector.get_indexes`: same nested iteration, but `except: pass` —
a failing table is skipped silently, nothing is printed. -/
def SQLServerIntrospector.get_indexes (src : MSSQLSource) :
    Dict (List IndexOut) × List String :=
  (SQLServerIntrospector.get_schemas src).foldl (fun acc schema_name =>
    (src.table_names schema_name).foldl (fun acc table =>
      let full_name := schema_name ++ "." ++ table
      match src.table_indexes table schema_name with
      | .ok idxs =>
          (dinsert full_name
            (idxs.map fun i => { name := i.name, columns := i.column_names, unique := i.unique })
            acc.1, acc.2)
      | .error _ => acc)
      acc) ([], [])

/-- `SQLServerIntrospector._get_module`: the shared
`sys.objects × sys.sql_modules × sys.schemas` query filtered by one object-type
code; each row stores `objects[row[0]] = row[1]`. -/
def SQLServerIntrospector._get_module (src : MSSQLSource) (type_filter : String) :
    Dict String :=
  (src.sql_modules type_filter).foldl (fun acc row => dinsert row.1 row.2 acc) []

/-- `SQLServerIntrospector.get_views`: `_get_module('V')`. -/
def SQLServerIntrospector.get_views (src : MSSQLSource) : Dict String :=
  SQLServerIntrospector._get_module src "V"

/-- `SQLServerIntrospector.get_procedures`: `_get_module('P')`. -/
def SQLServerIntrospector.get_procedures (src : MSSQLSource) : Dict String :=
  SQLServerIntrospector._get_module src "P"

/-- `SQLServerIntrospector.get_triggers`: `_get_module('TR')`. -/
def SQLServerIntrospector.get_triggers (src : MSSQLSource) : Dict String :=
  SQLServerIntrospector._get_module src "TR"

/-- `SQLServerIntrospector.get_functions`: scalar (`FN`), then `update` with
inline-table-valued (`IF`), then `update` with table-valued (`TF`). -/
def SQLServerIntrospector.get_functions (src : MSSQLSource) : Dict String :=
  dupdate (dupdate (SQLServerIntrospector._get_module src "FN")
      (SQLServerIntrospector._get_module src "IF"))
    (SQLServerIntrospector._get_module src "TF")

/-- `SQLServerIntrospector.get_events`: `msdb.dbo.sysjobs` rows. -/
def SQLServerIntrospector.get_events (src : MSSQLSource) : Dict JobOut :=
  src.job_rows.foldl (fun acc row =>
    dinsert row.1 { enabled := decide (row.2.1 ≠ (0 : Int)), description := row.2.2 } acc) []

/-- `SQLServerIntrospector.get_synonyms`: `sys.synonyms` rows. -/
def SQLServerIntrospector.get_synonyms (src : MSSQLSource) : Dict String :=
  src.synonym_rows.foldl (fun acc row => dinsert row.1 row.2 acc) []

end introspection_1

/-! ### `introspection_1.py` coordinator: routing and the full scan -/

/-- The two concrete worker variants. -/
inductive WorkerKind where
  | mysqlWorker : WorkerKind
  | sqlServerWorker : WorkerKind

/-- An entry of the `DB_CONFIGS` table (the connection URL is environment plumbing
outside the core and is not modelled). -/
structure DBConfig where
  name : String
  type : String

namespace introspection_1

/-- The `DB_CONFIGS` mapping of `introspection_1.py`: keys `"1"` and `"2"`. -/
def DB_CONFIGS : String → Option DBConfig := fun config_key =>
  if config_key = "1" then some { name := "MySQL (Sakila)", type := "mysql" }
  else if config_key = "2" then some { name := "SQL Server (AdventureWorks)", type := "mssql" }
  else none

/-- The worker-resolution logic of `IntrospectionAgent.__init__`: an unknown
configuration key raises `ValueError("Invalid Configuration Key")` before the engine
is even created; an unknown `type` raises `ValueError("Unknown DB Type: ...")`.
Resolution is a pure function of the selector — no `MetadataSource` is consulted and
no query runs (`create_engine` is lazy). -/
def IntrospectionAgent.resolveWorker (config_key : String) : Except String WorkerKind :=
  match DB_CONFIGS config_key with
  | none => .error "Invalid Configuration Key"
  | some config =>
      if config.type = "mysql" then .ok WorkerKind.mysqlWorker
      else if config.type = "mssql" then .ok WorkerKind.sqlServerWorker
      else .error ("Unknown DB Type: " ++ config.type)

end introspection_1

/-- The eleven extraction results of a bound worker, as `run_scan` consumes them
through `self.worker`.  Each is `Except`-valued: `.error` models the call raising
(which aborts the scan), `.ok` a normal return. -/
structure WorkerAPI (A B C D E F G H I J K : Type) where
  get_schemas : Except String A
  get_user_defined_types : Except String B
  get_sequences : Except String C
  get_tables : Except String D
  get_indexes : Except String E
  get_views : Except String F
  get_procedures : Except String G
  get_functions : Except String H
  get_triggers : Except String I
  get_events : Except String J
  get_synonyms : Except String K

/-- The `scan_results` document assembled by `IntrospectionAgent.run_scan`, with the
nesting of the Python dict literal flattened into named fields: `metadata_*` is the
`metadata` sub-dict, `dep_*` is `dependencies`, `logic_*` is `logic`, `warn_*` is
`warnings`. -/
structure ScanReport (A B C D E F G H I J K : Type) where
  metadata_database : String
  metadata_type : String
  schemas : A
  dep_user_defined_types : B
  dep_sequences : C
  tables : D
  indexes : E
  logic_views : F
  logic_procedures : G
  logic_functions : H
  logic_triggers : I
  warn_events : J
  warn_synonyms : K

namespace introspection_1

/-- `IntrospectionAgent.run_scan`: the eleven extraction calls in the evaluation
order of the Python dict literal.  The second component is the trace of worker
methods invoked, in order; a raised call aborts the scan (first component `.error`)
after the calls made so far. -/
def IntrospectionAgent.run_scan {A B C D E F G H I J K : Type}
    (db_name db_type : String) (w : WorkerAPI A B C D E F G H I J K) :
    Except String (ScanReport A B C D E F G H I J K) × List String :=
  let log := ["get_schemas"]
  match w.get_schemas with
  | .error e => (.error e, log)
  | .ok schemas =>
  let log := log ++ ["get_user_defined_types"]
  match w.get_user_defined_types with
  | .error e => (.error e, log)
  | .ok udts =>
  let log := log ++ ["get_sequences"]
  match w.get_sequences with
  | .error e => (.error e, log)
  | .ok seqs =>
  let log := log ++ ["get_tables"]
  match w.get_tables with
  | .error e => (.error e, log)
  | .ok tables =>
  let log := log ++ ["get_indexes"]
  match w.get_indexes with
  | .error e => (.error e, log)
  | .ok indexes =>
  let log := log ++ ["get_views"]
  match w.get_views with
  | .error e => (.error e, log)
  | .ok views =>
  let log := log ++ ["get_procedures"]
  match w.get_procedures with
  | .error e => (.error e, log)
  | .ok procedures =>
  let log := log ++ ["get_functions"]
  match w.get_functions with
  | .error e => (.error e, log)
  | .ok functions =>
  let log := log ++ ["get_triggers"]
  match w.get_triggers with
  | .error e => (.error e, log)
  | .ok triggers =>
  let log := log ++ ["get_events"]
  match w.get_events with
  | .error e => (.error e, log)
  | .ok events =>
  let log := log ++ ["get_synonyms"]
  match w.get_synonyms with
  | .error e => (.error e, log)
  | .ok synonyms =>
    (.ok { metadata_database := db_name
           metadata_type := db_type
           schemas := schemas
           dep_user_defined_types := udts
           dep_sequences := seqs
           tables := tables
           indexes := indexes
           logic_views := views
           logic_procedures := procedures
           logic_functions := functions
           logic_triggers := triggers
           warn_events := events
           warn_synonyms := synonyms }, log)

/-- The `WorkerAPI` view of a bound `MySQLIntrospector` of `introspection_1.py`:
the total methods return normally, the two unguarded two-pass methods propagate
their own `Except`. -/
def mysqlWorkerAPI (src : MySQLSource) :
    WorkerAPI (List String) (Dict String) (Dict String) (Dict TableDescriptor)
      (Dict (List IndexOut)) (Dict String) (Dict String) (Dict String)
      (Dict (Dict String)) (Dict (Dict String)) (Dict String) where
  get_schemas := .ok (MySQLIntrospector.get_schemas src)
  get_user_defined_types := .ok (MySQLIntrospector.get_user_defined_types src)
  get_sequences := .ok (MySQLIntrospector.get_sequences src)
  get_tables := .ok (MySQLIntrospector.get_tables src)
  get_indexes := .ok (MySQLIntrospector.get_indexes src)
  get_views := .ok (MySQLIntrospector.get_views src)
  get_procedures := MySQLIntrospector.get_procedures src
  get_functions := MySQLIntrospector.get_functions src
  get_triggers := .ok (MySQLIntrospector.get_triggers src)
  get_events := .ok (MySQLIntrospector.get_events src)
  get_synonyms := .ok (MySQLIntrospector.get_synonyms src)

end introspection_1

/-! ### The earlier phase `introspection.py`: MySQL-only worker and driver routing -/

/-- Substring test, modelling Python's `needle in haystack` on strings. -/
def strContainsSub (hay needle : String) : Bool :=
  (List.range (hay.length + 1)).any fun i =>
    ((hay.toList.drop i).take needle.toList.length) == needle.toList

namespace introspection

/-- `MySQLIntrospector.get_views` of `introspection.py`: the per-view guard stores
`"Error extracting view: {e}"`. -/
def MySQLIntrospector.get_views (src : MySQLSource) : Dict String :=
  src.view_names.foldl (fun acc view =>
    match src.show_create_view view with
    | .error e => dinsert view ("Error extracting view: " ++ e) acc
    | .ok (some r) => dinsert view (r.getD 1 "") acc
    | .ok none => acc) []

/-- `MySQLIntrospector.get_procedures` of `introspection.py`: the per-object fetch
is guarded; a raised `SHOW CREATE PROCEDURE` stores
`"Error extracting procedure: {e}"` under the procedure's name and the loop
continues.  The method never raises for a per-object failure. -/
def MySQLIntrospector.get_procedures (src : MySQLSource) : Dict String :=
  src.procedure_status.foldl (fun acc row =>
    let proc_name := row.getD 1 ""
    match src.show_create_procedure proc_name with
    | .error e => dinsert proc_name ("Error extracting procedure: " ++ e) acc
    | .ok (some r) => dinsert proc_name (r.getD 2 "") acc
    | .ok none => acc) []

/-- `MySQLIntrospector.get_functions` of `introspection.py`: same guarded pattern. -/
def MySQLIntrospector.get_functions (src : MySQLSource) : Dict String :=
  src.function_status.foldl (fun acc row =>
    let func_name := row.getD 1 ""
    match src.show_create_function func_name with
    | .error e => dinsert func_name ("Error extracting function: " ++ e) acc
    | .ok (some r) => dinsert func_name (r.getD 2 "") acc
    | .ok none => acc) []

/-- `MySQLIntrospector.get_triggers` of `introspection.py`: the four component
fields plus the synthesized `definition_full` reconstruction
`CREATE TRIGGER name timing event ON table FOR EACH ROW statement`. -/
def MySQLIntrospector.get_triggers (src : MySQLSource) : Dict (Dict String) :=
  src.show_triggers.foldl (fun acc row =>
    let trigger_name := row.getD 0 ""
    dinsert trigger_name
      [("event", row.getD 1 ""), ("table", row.getD 2 ""),
       ("timing", row.getD 4 ""), ("statement", row.getD 3 ""),
       ("definition_full",
        "CREATE TRIGGER " ++ trigger_name ++ " " ++ row.getD 4 "" ++ " " ++ row.getD 1 ""
          ++ " ON " ++ row.getD 2 "" ++ " FOR EACH ROW " ++ row.getD 3 "")]
      acc) []

/-- The routing logic of `IntrospectionAgent.__init__` in `introspection.py`:
substring matching on the parsed driver name.  Only the MySQL strategy exists;
`postgresql`/`mssql` raise `NotImplementedError`, anything else raises
`ValueError`.  Routing is a pure function of the driver name. -/
def IntrospectionAgent.routeWorker (driver_name : String) : Except String WorkerKind :=
  if strContainsSub driver_name "mysql" then .ok WorkerKind.mysqlWorker
  else if strContainsSub driver_name "postgresql" then
    .error "Postgres worker is planned for Phase 3."
  else if strContainsSub driver_name "mssql" then
    .error "SQL Server worker is planned for Phase 3."
  else .error ("❌ No worker strategy found for driver: " ++ driver_name)

end introspection

/-! ### Derived fold lemmas shared by the claim proofs -/

theorem nodup_dkeys_dinsert_foldl {β α : Type} (keyOf : β → String) (valOf : β → α)
    (rows : List β) :
    (dkeys (rows.foldl (fun acc b => dinsert (keyOf b) (valOf b) acc) [])).Nodup := by
  have h := foldl_preserve (fun acc b => dinsert (keyOf b) (valOf b) acc)
    (fun acc => (dkeys acc).Nodup) (fun acc b hp => nodup_dkeys_dinsert _ _ _ hp) rows []
  exact h (by simp [dkeys])

theorem nodup_dkeys_dupdate {α : Type} (m o : Dict α) (h : (dkeys m).Nodup) :
    (dkeys (dupdate m o)).Nodup :=
  foldl_preserve _ (fun acc => (dkeys acc).Nodup)
    (fun _ _ hp => nodup_dkeys_dinsert _ _ _ hp) o m h

/-- Key uniqueness for the unguarded two-pass enumerate-then-fetch loops of
`introspection_1.py`, in case the loop returns at all. -/
theorem fetch_loop_ok_nodup (fetch : String → Except String (Option (List String)))
    (rows : List (List String)) (m : Dict String)
    (h : rows.foldlM (fun acc row => do
          let name := row.getD 1 ""
          let code ← fetch name
          pure (dinsert name (codeOrError code) acc))
        [] = .ok m) :
    (dkeys m).Nodup := by
  refine foldlM_except_preserve _ (fun acc => (dkeys acc).Nodup) ?_ rows [] m h (by simp [dkeys])
  intro acc row acc2 hf hp
  have hf2 : fetch (row.getD 1 "") >>=
      (fun code => pure (dinsert (row.getD 1 "") (codeOrError code) acc)) = Except.ok acc2 := hf
  rcases hfetch : fetch (row.getD 1 "") with e | code
  · rw [hfetch] at hf2
    have hf3 : (Except.error e : Except String (Dict String)) = Except.ok acc2 := hf2
    cases hf3
  · rw [hfetch] at hf2
    have hf3 : Except.ok (dinsert (row.getD 1 "") (codeOrError code) acc) = Except.ok acc2 := hf2
    cases hf3
    exact nodup_dkeys_dinsert _ _ _ hp

/-! ### Concrete sources used by counterexamples and witnesses -/

/-- A MySQL-family source with nothing in it (database name `sakila`). -/
def emptyMySQL : MySQLSource where
  database := "sakila"
  table_names := []
  columns := fun _ => []
  foreign_keys := fun _ => []
  pk_constraint := fun _ => none
  table_indexes := fun _ => []
  view_names := []
  show_create_view := fun _ => .ok none
  procedure_status := []
  show_create_procedure := fun _ => .ok none
  function_status := []
  show_create_function := fun _ => .ok none
  show_triggers := []
  show_events := []

/-- One listed procedure `p` whose `SHOW CREATE PROCEDURE` raises `boom`. -/
def procFailMySQL : MySQLSource :=
  { emptyMySQL with
    procedure_status := [["x", "p"]]
    show_create_procedure := fun n => if n = "p" then .error "boom" else .ok none }

/-- One `SHOW TRIGGERS` row: name `trg`, event `INSERT`, table `t`, statement `BODY`,
timing `BEFORE`. -/
def trigMySQL : MySQLSource :=
  { emptyMySQL with show_triggers := [["trg", "INSERT", "t", "BODY", "BEFORE"]] }

/-- A SQL-Server-family source with nothing in it. -/
def emptyMSSQL : MSSQLSource where
  schema_names := []
  table_names := fun _ => []
  columns := fun _ _ => .ok []
  foreign_keys := fun _ _ => .ok []
  pk_constraint := fun _ _ => .ok none
  table_indexes := fun _ _ => .ok []
  udt_rows := []
  sequence_rows := []
  sql_modules := fun _ => []
  job_rows := []
  synonym_rows := []

/-- One schema `S` with one table `T` carrying one foreign key to `S2.R` over
column `c`. -/
def fkMSSQL : MSSQLSource :=
  { emptyMSSQL with
    schema_names := ["S"]
    table_names := fun s => if s = "S" then ["T"] else []
    foreign_keys := fun _ _ =>
      .ok [{ referred_table := "R", referred_schema := some "S2",
             constrained_columns := ["c"] }] }

/-- One module of each function type code, with pairwise distinct names. -/
def fnMSSQL : MSSQLSource :=
  { emptyMSSQL with
    sql_modules := fun tf =>
      if tf = "FN" then [("S.f1", "def1")]
      else if tf = "IF" then [("S.f2", "def2")]
      else if tf = "TF" then [("S.f3", "def3")]
      else [] }

/-! ### Claims -/

/-- C2: Worker resolution matches the selector: configuration key `"1"` (engine type
`mysql`) resolves the MySQL worker and `"2"` (engine type `mssql`) the SQL Server
worker, while every other key raises the configuration error — resolution is a pure
function of the selector, so no extraction call or query can have executed.  In the
earlier phase `introspection.py`, a `mysql` driver name routes to the MySQL worker
(the only implemented strategy) and a driver name matching no known engine raises
the configuration `ValueError`. -/
theorem c2_resolve_worker_matches_selector (config_key driver_name : String)
    (h1 : config_key ≠ "1") (h2 : config_key ≠ "2")
    (hd1 : strContainsSub driver_name "mysql" = false)
    (hd2 : strContainsSub driver_name "postgresql" = false)
    (hd3 : strContainsSub driver_name "mssql" = false) :
    introspection_1.IntrospectionAgent.resolveWorker "1" = .ok WorkerKind.mysqlWorker ∧
    introspection_1.IntrospectionAgent.resolveWorker "2" = .ok WorkerKind.sqlServerWorker ∧
    introspection_1.IntrospectionAgent.resolveWorker config_key =
      .error "Invalid Configuration Key" ∧
    introspection.IntrospectionAgent.routeWorker "mysql+mysqlconnector" =
      .ok WorkerKind.mysqlWorker ∧
    introspection.IntrospectionAgent.routeWorker driver_name =
      .error ("❌ No worker strategy found for driver: " ++ driver_name) := by
  refine ⟨rfl, rfl, ?_, rfl, ?_⟩
  · simp [introspection_1.IntrospectionAgent.resolveWorker, introspection_1.DB_CONFIGS,
      h1, h2]
  · simp [introspection.IntrospectionAgent.routeWorker, hd1, hd2, hd3]

/-- C2 (witness): the unrecognized selector `"3"` and the unrecognized driver
`oracle` hit the error paths. -/
theorem c2_witness :
    ("3" : String) ≠ "1" ∧ ("3" : String) ≠ "2" ∧
    strContainsSub "oracle" "mysql" = false ∧
    strContainsSub "oracle" "postgresql" = false ∧
    strContainsSub "oracle" "mssql" = false ∧
    introspection_1.IntrospectionAgent.resolveWorker "3" =
      .error "Invalid Configuration Key" :=
  ⟨by decide, by decide, by rfl, by rfl, by rfl,
    (c2_resolve_worker_matches_selector "3" "oracle" (by decide) (by decide)
      (by rfl) (by rfl) (by rfl)).2.2.1⟩

/-- C9: The MySQL-family worker's `get_user_defined_types`, `get_sequences` and
`get_synonyms` return the empty mapping for every database state; each is a constant
function that ignores its `MetadataSource` argument, so the source is never
consulted. -/
theorem c9_mysql_absent_concepts_empty (src : MySQLSource) :
    introspection_1.MySQLIntrospector.get_user_defined_types src = [] ∧
    introspection_1.MySQLIntrospector.get_sequences src = [] ∧
    introspection_1.MySQLIntrospector.get_synonyms src = [] :=
  ⟨rfl, rfl, rfl⟩

/-- C3 (counterexample): `get_schemas` — one of the eleven Introspector methods —
returns a Python list of schema names, not a mapping: on a concrete source its
dynamic value is an array, so the claim that every one of the eleven methods
returns a mapping is false. -/
theorem c3_counterexample :
    introspection_1.MySQLIntrospector.get_schemas_val emptyMySQL =
      PyVal.arr [PyVal.str "sakila"] ∧
    PyVal.isMapping (introspection_1.MySQLIntrospector.get_schemas_val emptyMySQL) =
      false :=
  ⟨rfl, rfl⟩

/-- C3 (amended): Of the eleven Introspector methods, the ten apart from
`get_schemas` return, on both workers, a mapping (a total function into `Dict`,
never null) whose keys are unique — for the two unguarded MySQL routine loops,
whenever they return at all — and an engine lacking a concept returns the empty
mapping; `get_schemas` on both workers instead returns an ordered sequence of
schema names. -/
theorem c3_ten_methods_unique_keys (msrc : MySQLSource) (ssrc : MSSQLSource) :
    (dkeys (introspection_1.MySQLIntrospector.get_tables msrc)).Nodup ∧
    (dkeys (introspection_1.MySQLIntrospector.get_indexes msrc)).Nodup ∧
    introspection_1.MySQLIntrospector.get_user_defined_types msrc = [] ∧
    introspection_1.MySQLIntrospector.get_sequences msrc = [] ∧
    introspection_1.MySQLIntrospector.get_synonyms msrc = [] ∧
    (dkeys (introspection_1.MySQLIntrospector.get_views msrc)).Nodup ∧
    (∀ m, introspection_1.MySQLIntrospector.get_procedures msrc = .ok m →
      (dkeys m).Nodup) ∧
    (∀ m, introspection_1.MySQLIntrospector.get_functions msrc = .ok m →
      (dkeys m).Nodup) ∧
    (dkeys (introspection_1.MySQLIntrospector.get_triggers msrc)).Nodup ∧
    (dkeys (introspection_1.MySQLIntrospector.get_events msrc)).Nodup ∧
    (dkeys (introspection_1.SQLServerIntrospector.get_user_defined_types ssrc)).Nodup ∧
    (dkeys (introspection_1.SQLServerIntrospector.get_sequences ssrc)).Nodup ∧
    (dkeys (introspection_1.SQLServerIntrospector.get_tables ssrc).1).Nodup ∧
    (dkeys (introspection_1.SQLServerIntrospector.get_indexes ssrc).1).Nodup ∧
    (dkeys (introspection_1.SQLServerIntrospector.get_views ssrc)).Nodup ∧
    (dkeys (introspection_1.SQLServerIntrospector.get_procedures ssrc)).Nodup ∧
    (dkeys (introspection_1.SQLServerIntrospector.get_functions ssrc)).Nodup ∧
    (dkeys (introspection_1.SQLServerIntrospector.get_triggers ssrc)).Nodup ∧
    (dkeys (introspection_1.SQLServerIntrospector.get_events ssrc)).Nodup ∧
    (dkeys (introspection_1.SQLServerIntrospector.get_synonyms ssrc)).Nodup := by
  refine ⟨?_, ?_, rfl, rfl, rfl, ?_, ?_, ?_, ?_, ?_, ?_, ?_, ?_, ?_, ?_, ?_, ?_, ?_, ?_, ?_⟩
  · simp only [introspection_1.MySQLIntrospector.get_tables]
    exact nodup_dkeys_dinsert_foldl (fun t => t) _ msrc.table_names
  · simp only [introspection_1.MySQLIntrospector.get_indexes]
    exact nodup_dkeys_dinsert_foldl (fun t => t) _ msrc.table_names
  · simp only [introspection_1.MySQLIntrospector.get_views]
    refine foldl_preserve _ (fun acc => (dkeys acc).Nodup) ?_ _ [] (by simp [dkeys])
    intro acc view hp
    rcases h : msrc.show_create_view view with e | o
    · simpa [h] using nodup_dkeys_dinsert _ _ _ hp
    · cases o
      · simpa [h] using hp
      · simpa [h] using nodup_dkeys_dinsert _ _ _ hp
  · intro m hm
    exact fetch_loop_ok_nodup msrc.show_create_procedure msrc.procedure_status m hm
  · intro m hm
    exact fetch_loop_ok_nodup msrc.show_create_function msrc.function_status m hm
  · simp only [introspection_1.MySQLIntrospector.get_triggers]
    exact nodup_dkeys_dinsert_foldl (fun row => row.getD 0 "") _ msrc.show_triggers
  · simp only [introspection_1.MySQLIntrospector.get_events]
    exact nodup_dkeys_dinsert_foldl (fun row => row.getD 1 "") _ msrc.show_events
  · simp only [introspection_1.SQLServerIntrospector.get_user_defined_types]
    exact nodup_dkeys_dinsert_foldl (fun row => row.1) _ ssrc.udt_rows
  · simp only [introspection_1.SQLServerIntrospector.get_sequences]
    exact nodup_dkeys_dinsert_foldl (fun row => row.1) _ ssrc.sequence_rows
  · simp only [introspection_1.SQLServerIntrospector.get_tables]
    refine foldl_preserve _
      (fun acc : Dict TableDescriptor × List String => (dkeys acc.1).Nodup) ?_ _
      (([], []) : Dict TableDescriptor × List String) (by simp [dkeys])
    intro acc s hp
    refine foldl_preserve _ (fun acc => (dkeys acc.1).Nodup) ?_ _ acc hp
    intro acc2 t hp2
    rcases h : introspection_1.SQLServerIntrospector.tableEntry ssrc s t with e | d
    · simpa [h] using hp2
    · simpa [h] using nodup_dkeys_dinsert _ _ _ hp2
  · simp only [introspection_1.SQLServerIntrospector.get_indexes]
    refine foldl_preserve _
      (fun acc : Dict (List IndexOut) × List String => (dkeys acc.1).Nodup) ?_ _
      (([], []) : Dict (List IndexOut) × List String) (by simp [dkeys])
    intro acc s hp
    refine foldl_preserve _ (fun acc => (dkeys acc.1).Nodup) ?_ _ acc hp
    intro acc2 t hp2
    rcases h : ssrc.table_indexes t s with e | idxs
    · simpa [h] using hp2
    · simpa [h] using nodup_dkeys_dinsert _ _ _ hp2
  · simp only [introspection_1.SQLServerIntrospector.get_views,
      introspection_1.SQLServerIntrospector._get_module]
    exact nodup_dkeys_dinsert_foldl (fun row => row.1) _ (ssrc.sql_modules "V")
  · simp only [introspection_1.SQLServerIntrospector.get_procedures,
      introspection_1.SQLServerIntrospector._get_module]
    exact nodup_dkeys_dinsert_foldl (fun row => row.1) _ (ssrc.sql_modules "P")
  · simp only [introspection_1.SQLServerIntrospector.get_functions]
    refine nodup_dkeys_dupdate _ _ (nodup_dkeys_dupdate _ _ ?_)
    simp only [introspection_1.SQLServerIntrospector._get_module]
    exact nodup_dkeys_dinsert_foldl (fun row => row.1) _ (ssrc.sql_modules "FN")
  · simp only [introspection_1.SQLServerIntrospector.get_triggers,
      introspection_1.SQLServerIntrospector._get_module]
    exact nodup_dkeys_dinsert_foldl (fun row => row.1) _ (ssrc.sql_modules "TR")
  · simp only [introspection_1.SQLServerIntrospector.get_events]
    exact nodup_dkeys_dinsert_foldl (fun row => row.1) _ ssrc.job_rows
  · simp only [introspection_1.SQLServerIntrospector.get_synonyms]
    exact nodup_dkeys_dinsert_foldl (fun row => row.1) _ ssrc.synonym_rows

/-- C3 (witness): the mapping invariants apply at a concrete source; in particular
the guarded hypotheses of the routine conjunct are dischargeable. -/
theorem c3_witness :
    (dkeys (introspection_1.MySQLIntrospector.get_tables emptyMySQL)).Nodup ∧
    (dkeys ([] : Dict String)).Nodup :=
  ⟨(c3_ten_methods_unique_keys emptyMySQL emptyMSSQL).1,
   (c3_ten_methods_unique_keys emptyMySQL emptyMSSQL).2.2.2.2.2.2.1 [] rfl⟩

/-- C1 (counterexample): in `introspection_1.py`, `MySQLIntrospector.get_procedures`
has no per-object guard — on a source with one listed procedure `p` whose
`SHOW CREATE PROCEDURE` raises `boom`, the method call itself raises instead of
storing an error placeholder, refuting the claim that no extraction method ever
raises for a per-object failure. -/
theorem c1_counterexample :
    introspection_1.MySQLIntrospector.get_procedures procFailMySQL = .error "boom" := rfl

/-- C1 (amended): the extraction methods that guard per-object fetches behave as
claimed — a failure extracting one named object stores a descriptive error string
keyed by that object's name, the method returns normally, and the remaining objects
are still extracted.  This holds for `get_procedures`, `get_functions` and
`get_views` of `introspection.py` and for `get_views` of `introspection_1.py`; it
does not hold for `get_procedures`/`get_functions` of `introspection_1.py`, whose
per-object fetch failures propagate (see the counterexample). -/
theorem c1_guarded_methods_store_placeholders (src : MySQLSource) :
    (∀ name e, src.show_create_procedure name = .error e →
      (dlookup name (introspection.MySQLIntrospector.get_procedures src) =
          some ("Error extracting procedure: " ++ e) ↔
        ∃ row ∈ src.procedure_status, row.getD 1 "" = name)) ∧
    (∀ name e, src.show_create_function name = .error e →
      (dlookup name (introspection.MySQLIntrospector.get_functions src) =
          some ("Error extracting function: " ++ e) ↔
        ∃ row ∈ src.function_status, row.getD 1 "" = name)) ∧
    (∀ view e, src.show_create_view view = .error e →
      (dlookup view (introspection.MySQLIntrospector.get_views src) =
          some ("Error extracting view: " ++ e) ↔ view ∈ src.view_names)) ∧
    (∀ view e, src.show_create_view view = .error e →
      (dlookup view (introspection_1.MySQLIntrospector.get_views src) =
          some ("Error: " ++ e) ↔ view ∈ src.view_names)) ∧
    (∀ name r, src.show_create_procedure name = .ok (some r) →
      (dlookup name (introspection.MySQLIntrospector.get_procedures src) =
          some (r.getD 2 "") ↔
        ∃ row ∈ src.procedure_status, row.getD 1 "" = name)) := by
  refine ⟨?_, ?_, ?_, ?_, ?_⟩
  · intro name e he
    refine dlookup_foldl_hit _ name _ (fun row => row.getD 1 "" = name) ?_ ?_
      src.procedure_status
    · intro acc row hr
      simp only [hr, he]
    · intro acc row hr
      rcases hsc : src.show_create_procedure (row.getD 1 "") with e2 | o
      · simp only [hsc]
        rw [dlookup_dinsert, if_neg hr]
      · cases o
        · simp only [hsc]
        · simp only [hsc]
          rw [dlookup_dinsert, if_neg hr]
  · intro name e he
    refine dlookup_foldl_hit _ name _ (fun row => row.getD 1 "" = name) ?_ ?_
      src.function_status
    · intro acc row hr
      simp only [hr, he]
    · intro acc row hr
      rcases hsc : src.show_create_function (row.getD 1 "") with e2 | o
      · simp only [hsc]
        rw [dlookup_dinsert, if_neg hr]
      · cases o
        · simp only [hsc]
        · simp only [hsc]
          rw [dlookup_dinsert, if_neg hr]
  · intro view e he
    refine Iff.trans (dlookup_foldl_hit _ view _ (fun v => v = view) ?_ ?_
      src.view_names) (by simp)
    · intro acc v hv
      subst hv
      simp only [he]
    · intro acc v hv
      rcases hsc : src.show_create_view v with e2 | o
      · simp only [hsc]
        rw [dlookup_dinsert, if_neg hv]
      · cases o
        · simp only [hsc]
        · simp only [hsc]
          rw [dlookup_dinsert, if_neg hv]
  · intro view e he
    refine Iff.trans (dlookup_foldl_hit _ view _ (fun v => v = view) ?_ ?_
      src.view_names) (by simp)
    · intro acc v hv
      subst hv
      simp only [he]
    · intro acc v hv
      rcases hsc : src.show_create_view v with e2 | o
      · simp only [hsc]
        rw [dlookup_dinsert, if_neg hv]
      · cases o
        · simp only [hsc]
        · simp only [hsc]
          rw [dlookup_dinsert, if_neg hv]
  · intro name r he
    refine dlookup_foldl_hit _ name _ (fun row => row.getD 1 "" = name) ?_ ?_
      src.procedure_status
    · intro acc row hr
      simp only [hr, he]
    · intro acc row hr
      rcases hsc : src.show_create_procedure (row.getD 1 "") with e2 | o
      · simp only [hsc]
        rw [dlookup_dinsert, if_neg hr]
      · cases o
        · simp only [hsc]
        · simp only [hsc]
          rw [dlookup_dinsert, if_neg hr]

/-- C1 (witness): on the concrete source whose procedure `p` fails with `boom`, the
guarded `introspection.py` loop stores the placeholder under key `p`. -/
theorem c1_witness :
    procFailMySQL.show_create_procedure "p" = .error "boom" ∧
    dlookup "p" (introspection.MySQLIntrospector.get_procedures procFailMySQL) =
      some ("Error extracting procedure: " ++ "boom") :=
  ⟨rfl,
    ((c1_guarded_methods_store_placeholders procFailMySQL).1 "p" "boom" rfl).mpr
      ⟨["x", "p"], by simp [procFailMySQL], rfl⟩⟩

/-- C4: For the SQL Server worker's `get_tables`, a key is present exactly when some
schema/table pair qualifying to it was extracted without raising — so a table whose
extraction throws is omitted while every other table's entry is present, and every
key has the qualified form `schema.table` over all reflected schemas; a warning
line is surfaced exactly for the failing tables.  The method is total (it never
raises out of the per-table loop). -/
theorem c4_mssql_get_tables_partial_inventory (src : MSSQLSource) (k w : String) :
    (k ∈ dkeys (introspection_1.SQLServerIntrospector.get_tables src).1 ↔
      ∃ s ∈ introspection_1.SQLServerIntrospector.get_schemas src,
        ∃ t ∈ src.table_names s, s ++ "." ++ t = k ∧
          isOkB (introspection_1.SQLServerIntrospector.tableEntry src s t) = true) ∧
    (w ∈ (introspection_1.SQLServerIntrospector.get_tables src).2 ↔
      ∃ s ∈ introspection_1.SQLServerIntrospector.get_schemas src,
        ∃ t ∈ src.table_names s, ∃ e,
          introspection_1.SQLServerIntrospector.tableEntry src s t = .error e ∧
          w = "⚠️ Warning: Could not read table " ++ (s ++ "." ++ t) ++ ": " ++ e) := by
  constructor
  · refine Iff.trans (foldl_iff _
      (fun acc : Dict TableDescriptor × List String => k ∈ dkeys acc.1)
      (fun s => ∃ t ∈ src.table_names s, s ++ "." ++ t = k ∧
        isOkB (introspection_1.SQLServerIntrospector.tableEntry src s t) = true) ?_
      (introspection_1.SQLServerIntrospector.get_schemas src) ([], []))
      (by simp [dkeys])
    intro acc s
    refine foldl_iff _
      (fun acc : Dict TableDescriptor × List String => k ∈ dkeys acc.1)
      (fun t => s ++ "." ++ t = k ∧
        isOkB (introspection_1.SQLServerIntrospector.tableEntry src s t) = true) ?_
      (src.table_names s) acc
    intro acc2 t
    rcases hsc : introspection_1.SQLServerIntrospector.tableEntry src s t with e | d
    · simp only [hsc, isOkB]
      simp
    · simp only [hsc, isOkB]
      rw [mem_dkeys_dinsert]
      constructor
      · rintro (rfl | hm)
        · exact Or.inr ⟨rfl, trivial⟩
        · exact Or.inl hm
      · rintro (hm | ⟨hk, _⟩)
        · exact Or.inr hm
        · exact Or.inl hk.symm
  · refine Iff.trans (foldl_iff _
      (fun acc : Dict TableDescriptor × List String => w ∈ acc.2)
      (fun s => ∃ t ∈ src.table_names s, ∃ e,
        introspection_1.SQLServerIntrospector.tableEntry src s t = .error e ∧
        w = "⚠️ Warning: Could not read table " ++ (s ++ "." ++ t) ++ ": " ++ e) ?_
      (introspection_1.SQLServerIntrospector.get_schemas src) ([], []))
      (by simp)
    intro acc s
    refine foldl_iff _
      (fun acc : Dict TableDescriptor × List String => w ∈ acc.2)
      (fun t => ∃ e,
        introspection_1.SQLServerIntrospector.tableEntry src s t = .error e ∧
        w = "⚠️ Warning: Could not read table " ++ (s ++ "." ++ t) ++ ": " ++ e) ?_
      (src.table_names s) acc
    intro acc2 t
    rcases hsc : introspection_1.SQLServerIntrospector.tableEntry src s t with e | d
    · simp only [hsc, List.mem_append, List.mem_singleton]
      constructor
      · rintro (hm | rfl)
        · exact Or.inl hm
        · exact Or.inr ⟨e, rfl, rfl⟩
      · rintro (hm | ⟨e2, he2, rfl⟩)
        · exact Or.inl hm
        · injection he2 with h3
          subst h3
          exact Or.inr rfl
    · simp only [hsc]
      simp

/-- C10: For the SQL Server worker's `get_indexes`, a key is present exactly when
reflecting that schema/table pair's indexes returned normally — a table whose
reflection raises is omitted — and the emitted warning-line list is empty (the
`except: pass` is silent: no warning, no placeholder).  The method is total, so the
per-table loop never lets the exception escape. -/
theorem c10_mssql_get_indexes_silent_skip (src : MSSQLSource) (k : String) :
    (k ∈ dkeys (introspection_1.SQLServerIntrospector.get_indexes src).1 ↔
      ∃ s ∈ introspection_1.SQLServerIntrospector.get_schemas src,
        ∃ t ∈ src.table_names s, s ++ "." ++ t = k ∧
          isOkB (src.table_indexes t s) = true) ∧
    (introspection_1.SQLServerIntrospector.get_indexes src).2 = [] := by
  constructor
  · refine Iff.trans (foldl_iff _
      (fun acc : Dict (List IndexOut) × List String => k ∈ dkeys acc.1)
      (fun s => ∃ t ∈ src.table_names s, s ++ "." ++ t = k ∧
        isOkB (src.table_indexes t s) = true) ?_
      (introspection_1.SQLServerIntrospector.get_schemas src) ([], []))
      (by simp [dkeys])
    intro acc s
    refine foldl_iff _
      (fun acc : Dict (List IndexOut) × List String => k ∈ dkeys acc.1)
      (fun t => s ++ "." ++ t = k ∧ isOkB (src.table_indexes t s) = true) ?_
      (src.table_names s) acc
    intro acc2 t
    rcases hsc : src.table_indexes t s with e | idxs
    · simp only [hsc, isOkB]
      simp
    · simp only [hsc, isOkB]
      rw [mem_dkeys_dinsert]
      constructor
      · rintro (rfl | hm)
        · exact Or.inr ⟨rfl, trivial⟩
        · exact Or.inl hm
      · rintro (hm | ⟨hk, _⟩)
        · exact Or.inr hm
        · exact Or.inl hk.symm
  · refine foldl_preserve _
      (fun acc : Dict (List IndexOut) × List String => acc.2 = []) ?_
      (introspection_1.SQLServerIntrospector.get_schemas src) ([], []) rfl
    intro acc s hp
    refine foldl_preserve _
      (fun acc : Dict (List IndexOut) × List String => acc.2 = []) ?_
      (src.table_names s) acc hp
    intro acc2 t hp2
    rcases hsc : src.table_indexes t s with e | idxs
    · simpa [hsc] using hp2
    · simpa [hsc] using hp2

/-- C5: the SQL Server worker's `get_functions` is exactly the union of the three
module mappings for type codes `FN`, `IF` and `TF`: its key set is the union of the
three key sets, and — under the engine guarantee that an object carries exactly one
type code, i.e. the three mappings have pairwise disjoint keys — every entry of each
of the three mappings survives unchanged in the merged mapping (no key collision
overwrites anything). -/
theorem c5_mssql_get_functions_merge (src : MSSQLSource)
    (hd1 : ∀ q, q ∈ dkeys (introspection_1.SQLServerIntrospector._get_module src "FN") →
      q ∉ dkeys (introspection_1.SQLServerIntrospector._get_module src "IF"))
    (hd2 : ∀ q, q ∈ dkeys (introspection_1.SQLServerIntrospector._get_module src "FN") →
      q ∉ dkeys (introspection_1.SQLServerIntrospector._get_module src "TF"))
    (hd3 : ∀ q, q ∈ dkeys (introspection_1.SQLServerIntrospector._get_module src "IF") →
      q ∉ dkeys (introspection_1.SQLServerIntrospector._get_module src "TF")) :
    (∀ q, q ∈ dkeys (introspection_1.SQLServerIntrospector.get_functions src) ↔
      (q ∈ dkeys (introspection_1.SQLServerIntrospector._get_module src "FN") ∨
       q ∈ dkeys (introspection_1.SQLServerIntrospector._get_module src "IF") ∨
       q ∈ dkeys (introspection_1.SQLServerIntrospector._get_module src "TF"))) ∧
    (∀ q v,
      (dlookup q (introspection_1.SQLServerIntrospector._get_module src "FN") = some v ∨
       dlookup q (introspection_1.SQLServerIntrospector._get_module src "IF") = some v ∨
       dlookup q (introspection_1.SQLServerIntrospector._get_module src "TF") = some v) →
      dlookup q (introspection_1.SQLServerIntrospector.get_functions src) = some v) := by
  have hnodup : ∀ tf, (dkeys (introspection_1.SQLServerIntrospector._get_module src tf)).Nodup := by
    intro tf
    simp only [introspection_1.SQLServerIntrospector._get_module]
    exact nodup_dkeys_dinsert_foldl (fun row => row.1) _ (src.sql_modules tf)
  constructor
  · intro q
    simp only [introspection_1.SQLServerIntrospector.get_functions]
    rw [mem_dkeys_dupdate, mem_dkeys_dupdate]
    tauto
  · intro q v hv
    simp only [introspection_1.SQLServerIntrospector.get_functions]
    rcases hv with hv | hv | hv
    · have hmem : q ∈ dkeys (introspection_1.SQLServerIntrospector._get_module src "FN") := by
        rw [← dlookup_isSome, hv]; rfl
      rw [dlookup_dupdate_not_mem _ _ _ (hd2 q hmem),
        dlookup_dupdate_not_mem _ _ _ (hd1 q hmem)]
      exact hv
    · have hmem : q ∈ dkeys (introspection_1.SQLServerIntrospector._get_module src "IF") := by
        rw [← dlookup_isSome, hv]; rfl
      rw [dlookup_dupdate_not_mem _ _ _ (hd3 q hmem)]
      exact dlookup_dupdate_mem _ _ _ _ (hnodup "IF") hv
    · exact dlookup_dupdate_mem _ _ _ _ (hnodup "TF") hv

/-- C5 (witness): on a source with one function of each type code the disjointness
hypotheses hold and both a scalar and a table-valued entry survive the merge. -/
theorem c5_witness :
    (∀ q, q ∈ dkeys (introspection_1.SQLServerIntrospector._get_module fnMSSQL "FN") →
      q ∉ dkeys (introspection_1.SQLServerIntrospector._get_module fnMSSQL "IF")) ∧
    (∀ q, q ∈ dkeys (introspection_1.SQLServerIntrospector._get_module fnMSSQL "FN") →
      q ∉ dkeys (introspection_1.SQLServerIntrospector._get_module fnMSSQL "TF")) ∧
    (∀ q, q ∈ dkeys (introspection_1.SQLServerIntrospector._get_module fnMSSQL "IF") →
      q ∉ dkeys (introspection_1.SQLServerIntrospector._get_module fnMSSQL "TF")) ∧
    dlookup "S.f1" (introspection_1.SQLServerIntrospector.get_functions fnMSSQL) =
      some "def1" := by
  have e1 : dkeys (introspection_1.SQLServerIntrospector._get_module fnMSSQL "FN") =
      ["S.f1"] := rfl
  have e2 : dkeys (introspection_1.SQLServerIntrospector._get_module fnMSSQL "IF") =
      ["S.f2"] := rfl
  have e3 : dkeys (introspection_1.SQLServerIntrospector._get_module fnMSSQL "TF") =
      ["S.f3"] := rfl
  have hd1 : ∀ q, q ∈ dkeys (introspection_1.SQLServerIntrospector._get_module fnMSSQL "FN") →
      q ∉ dkeys (introspection_1.SQLServerIntrospector._get_module fnMSSQL "IF") := by
    rw [e1, e2]
    intro q hq
    simp only [List.mem_singleton] at hq
    subst hq
    decide
  have hd2 : ∀ q, q ∈ dkeys (introspection_1.SQLServerIntrospector._get_module fnMSSQL "FN") →
      q ∉ dkeys (introspection_1.SQLServerIntrospector._get_module fnMSSQL "TF") := by
    rw [e1, e3]
    intro q hq
    simp only [List.mem_singleton] at hq
    subst hq
    decide
  have hd3 : ∀ q, q ∈ dkeys (introspection_1.SQLServerIntrospector._get_module fnMSSQL "IF") →
      q ∉ dkeys (introspection_1.SQLServerIntrospector._get_module fnMSSQL "TF") := by
    rw [e2, e3]
    intro q hq
    simp only [List.mem_singleton] at hq
    subst hq
    decide
  exact ⟨hd1, hd2, hd3,
    (c5_mssql_get_functions_merge fnMSSQL hd1 hd2 hd3).2 "S.f1" "def1" (Or.inl rfl)⟩

/-- C6: whenever all eleven worker calls return, `run_scan` invokes them in exactly
the fixed order schemas, user-defined types, sequences, tables, indexes, views,
procedures, functions, triggers, events, synonyms (the recorded trace), and the
returned report is fully populated: metadata plus every section holds the
corresponding extraction result, so no partially populated report is ever
returned. -/
theorem c6_run_scan_order_and_full_report {A B C D E F G H I J K : Type}
    (db_name db_type : String) (w : WorkerAPI A B C D E F G H I J K)
    (a : A) (b : B) (c : C) (d : D) (e : E) (f : F) (g : G) (h : H) (i : I) (j : J)
    (kk : K)
    (ha : w.get_schemas = .ok a) (hb : w.get_user_defined_types = .ok b)
    (hc : w.get_sequences = .ok c) (hd : w.get_tables = .ok d)
    (he : w.get_indexes = .ok e) (hf : w.get_views = .ok f)
    (hg : w.get_procedures = .ok g) (hh : w.get_functions = .ok h)
    (hi : w.get_triggers = .ok i) (hj : w.get_events = .ok j)
    (hk : w.get_synonyms = .ok kk) :
    introspection_1.IntrospectionAgent.run_scan db_name db_type w =
      (.ok { metadata_database := db_name, metadata_type := db_type,
             schemas := a, dep_user_defined_types := b, dep_sequences := c,
             tables := d, indexes := e, logic_views := f, logic_procedures := g,
             logic_functions := h, logic_triggers := i, warn_events := j,
             warn_synonyms := kk },
       ["get_schemas", "get_user_defined_types", "get_sequences", "get_tables",
        "get_indexes", "get_views", "get_procedures", "get_functions",
        "get_triggers", "get_events", "get_synonyms"]) := by
  simp [introspection_1.IntrospectionAgent.run_scan, ha, hb, hc, hd, he, hf, hg, hh,
    hi, hj, hk]

/-- C6 (witness): a full scan of the MySQL worker bound to a concrete source
produces the complete report and the canonical eleven-call trace. -/
theorem c6_witness :
    introspection_1.IntrospectionAgent.run_scan "MySQL (Sakila)" "mysql"
        (introspection_1.mysqlWorkerAPI emptyMySQL) =
      (.ok { metadata_database := "MySQL (Sakila)", metadata_type := "mysql",
             schemas := ["sakila"], dep_user_defined_types := [], dep_sequences := [],
             tables := [], indexes := [], logic_views := [], logic_procedures := [],
             logic_functions := [], logic_triggers := [], warn_events := [],
             warn_synonyms := [] },
       ["get_schemas", "get_user_defined_types", "get_sequences", "get_tables",
        "get_indexes", "get_views", "get_procedures", "get_functions",
        "get_triggers", "get_events", "get_synonyms"]) :=
  c6_run_scan_order_and_full_report "MySQL (Sakila)" "mysql"
    (introspection_1.mysqlWorkerAPI emptyMySQL)
    ["sakila"] [] [] [] [] [] [] [] [] [] []
    rfl rfl rfl rfl rfl rfl rfl rfl rfl rfl rfl

/-- C7 (counterexample): in `introspection_1.py`, a trigger descriptor holds only
the four component fields taken from the `SHOW TRIGGERS` row — on a concrete source
the descriptor of trigger `trg` has no `definition_full` entry, so the claim that
the MySQL-family `get_triggers` additionally synthesizes a full reconstructed
CREATE TRIGGER statement is false for this worker. -/
theorem c7_counterexample :
    dlookup "trg" (introspection_1.MySQLIntrospector.get_triggers trigMySQL) =
      some [("event", "INSERT"), ("table", "t"), ("timing", "BEFORE"),
            ("statement", "BODY")] ∧
    dlookup "definition_full"
      [("event", "INSERT"), ("table", "t"), ("timing", "BEFORE"),
       ("statement", "BODY")] = (none : Option String) :=
  ⟨rfl, rfl⟩

/-- C7 (amended): under distinct trigger names, every trigger descriptor carries
the component fields event, table, timing and statement from its listing row;
only `introspection.py` additionally synthesizes the derived `definition_full`
string `CREATE TRIGGER name timing event ON table FOR EACH ROW statement`, while
`introspection_1.py` stores just the four component fields. -/
theorem c7_trigger_descriptor_fields (src : MySQLSource)
    (hnd : (src.show_triggers.map (fun row => row.getD 0 "")).Nodup) :
    ∀ row ∈ src.show_triggers,
      dlookup (row.getD 0 "") (introspection.MySQLIntrospector.get_triggers src) =
        some [("event", row.getD 1 ""), ("table", row.getD 2 ""),
              ("timing", row.getD 4 ""), ("statement", row.getD 3 ""),
              ("definition_full",
               "CREATE TRIGGER " ++ row.getD 0 "" ++ " " ++ row.getD 4 "" ++ " "
                 ++ row.getD 1 "" ++ " ON " ++ row.getD 2 "" ++ " FOR EACH ROW "
                 ++ row.getD 3 "")] ∧
      dlookup (row.getD 0 "") (introspection_1.MySQLIntrospector.get_triggers src) =
        some [("event", row.getD 1 ""), ("table", row.getD 2 ""),
              ("timing", row.getD 4 ""), ("statement", row.getD 3 "")] := by
  intro row hrow
  constructor
  · exact foldl_dinsert_lookup_nodup (fun row => row.getD 0 "") _
      src.show_triggers hnd row hrow []
  · exact foldl_dinsert_lookup_nodup (fun row => row.getD 0 "") _
      src.show_triggers hnd row hrow []

/-- C7 (witness): on the concrete one-trigger source the `introspection.py`
descriptor carries the synthesized full statement. -/
theorem c7_witness :
    (trigMySQL.show_triggers.map (fun row => row.getD 0 "")).Nodup ∧
    dlookup "trg" (introspection.MySQLIntrospector.get_triggers trigMySQL) =
      some [("event", "INSERT"), ("table", "t"), ("timing", "BEFORE"),
            ("statement", "BODY"),
            ("definition_full",
             "CREATE TRIGGER " ++ "trg" ++ " " ++ "BEFORE" ++ " " ++ "INSERT"
               ++ " ON " ++ "t" ++ " FOR EACH ROW " ++ "BODY")] := by
  have hnd : (trigMySQL.show_triggers.map (fun row => row.getD 0 "")).Nodup := by
    simp [trigMySQL, emptyMySQL]
  exact ⟨hnd,
    (c7_trigger_descriptor_fields trigMySQL hnd ["trg", "INSERT", "t", "BODY", "BEFORE"]
      (by simp [trigMySQL, emptyMySQL])).1⟩

/-- C8 (counterexample): a SQL Server table with a foreign key constraining column
`c` yields a foreign-key record holding only `referred_table` and
`referred_schema` — its `constrained_columns` entry is absent, refuting the claim
that every foreign-key record of either worker contains the constrained columns. -/
theorem c8_counterexample :
    dlookup "S.T" (introspection_1.SQLServerIntrospector.get_tables fkMSSQL).1 =
      some { type := "table", columns := [], primary_key := [],
             foreign_keys := [[("referred_table", PyVal.str "R"),
                               ("referred_schema", PyVal.str "S2")]] } ∧
    dlookup "constrained_columns"
      [("referred_table", PyVal.str "R"), ("referred_schema", PyVal.str "S2")] =
      (none : Option PyVal) :=
  ⟨rfl, rfl⟩

/-- A successful `tableEntry` carries exactly the reflected foreign keys, rendered
as the two-field `referred_table`/`referred_schema` records. -/
theorem tableEntry_ok_fk (src : MSSQLSource) (s t : String) (d : TableDescriptor)
    (h : introspection_1.SQLServerIntrospector.tableEntry src s t = .ok d) :
    ∃ fks, src.foreign_keys t s = .ok fks ∧ d.foreign_keys = fks.map fkRecordMSSQL := by
  have h2 : (src.columns t s >>= fun cols =>
      src.foreign_keys t s >>= fun fks =>
      src.pk_constraint t s >>= fun pk =>
      (pure { type := "table"
              columns := cols.map fun c =>
                { name := c.name, type := c.type, nullable := c.nullable }
              primary_key := pk.getD []
              foreign_keys := fks.map fkRecordMSSQL } :
        Except String TableDescriptor)) = Except.ok d := h
  rcases hc : src.columns t s with e | cols
  · rw [hc] at h2
    have h3 : (Except.error e : Except String TableDescriptor) = Except.ok d := h2
    cases h3
  · rw [hc] at h2
    rcases hf : src.foreign_keys t s with e | fks
    · rw [hf] at h2
      have h3 : (Except.error e : Except String TableDescriptor) = Except.ok d := h2
      cases h3
    · rw [hf] at h2
      rcases hp : src.pk_constraint t s with e | pk
      · rw [hp] at h2
        have h3 : (Except.error e : Except String TableDescriptor) = Except.ok d := h2
        cases h3
      · rw [hp] at h2
        have h3 : Except.ok
            { type := "table"
              columns := cols.map fun c =>
                { name := c.name, type := c.type, nullable := c.nullable }
              primary_key := pk.getD []
              foreign_keys := fks.map fkRecordMSSQL } = Except.ok d := h2
        injection h3 with h4
        exact ⟨fks, rfl, by rw [← h4]⟩

/-- C8 (amended): every foreign-key record in a MySQL table descriptor contains
exactly the referred table and the constrained columns (no schema — the engine has
a single namespace), while every foreign-key record in a SQL Server table
descriptor contains exactly the referred table and the referred schema, with no
constrained-columns entry. -/
theorem c8_fk_record_fields (msrc : MySQLSource) (ssrc : MSSQLSource) :
    (∀ k d, dlookup k (introspection_1.MySQLIntrospector.get_tables msrc) = some d →
      ∀ fkrec ∈ d.foreign_keys,
        dkeys fkrec = ["referred_table", "constrained_columns"]) ∧
    (∀ k d, dlookup k (introspection_1.SQLServerIntrospector.get_tables ssrc).1 = some d →
      ∀ fkrec ∈ d.foreign_keys,
        dkeys fkrec = ["referred_table", "referred_schema"]) := by
  constructor
  · intro k d hlook fkrec hrec
    have hsrc := foldl_lookup_source _ (fun x : Dict TableDescriptor => x)
      (fun t k2 d2 => d2.foreign_keys = (msrc.foreign_keys t).map fkRecordMySQL)
      ?hstep msrc.table_names [] k d hlook
    case hstep =>
      intro acc t k2 d2 hin
      rw [dlookup_dinsert] at hin
      by_cases ht : t = k2
      · rw [if_pos ht] at hin
        injection hin with hd2
        exact Or.inl (by rw [← hd2])
      · rw [if_neg ht] at hin
        exact Or.inr hin
    rcases hsrc with ⟨t, _, hfk⟩ | hnil
    · rw [hfk] at hrec
      rcases List.mem_map.mp hrec with ⟨fk, _, hrfl⟩
      rw [← hrfl]
      rfl
    · simp [dlookup] at hnil
  · intro k d hlook fkrec hrec
    have hsrc := foldl_lookup_source _
      (fun x : Dict TableDescriptor × List String => x.1)
      (fun s k2 d2 => ∃ t,
        introspection_1.SQLServerIntrospector.tableEntry ssrc s t = .ok d2)
      ?houter (introspection_1.SQLServerIntrospector.get_schemas ssrc) ([], []) k d hlook
    case houter =>
      intro acc s k2 d2 hin
      have hstep := foldl_lookup_source _
        (fun x : Dict TableDescriptor × List String => x.1)
        (fun t k3 d3 =>
          introspection_1.SQLServerIntrospector.tableEntry ssrc s t = .ok d3)
        ?hinner (ssrc.table_names s) acc k2 d2 hin
      case hinner =>
        intro acc2 t k3 d3 hin2
        rcases hsc : introspection_1.SQLServerIntrospector.tableEntry ssrc s t
          with e | dd
        · simp only [hsc] at hin2
          exact Or.inr hin2
        · simp only [hsc] at hin2
          rw [dlookup_dinsert] at hin2
          by_cases ht : s ++ "." ++ t = k3
          · rw [if_pos ht] at hin2
            injection hin2 with hd3
            exact Or.inl (show introspection_1.SQLServerIntrospector.tableEntry ssrc s t =
              Except.ok d3 by rw [hsc, hd3])
          · rw [if_neg ht] at hin2
            exact Or.inr hin2
      rcases hstep with ⟨t, _, hok⟩ | hacc
      · exact Or.inl ⟨t, hok⟩
      · exact Or.inr hacc
    rcases hsrc with ⟨s, _, t, hok⟩ | hnil
    · rcases tableEntry_ok_fk ssrc s t d hok with ⟨fks, _, hfk⟩
      rw [hfk] at hrec
      rcases List.mem_map.mp hrec with ⟨fk, _, hrfl⟩
      rw [← hrfl]
      rfl
    · simp [dlookup] at hnil

/-- C8 (witness): a concrete MySQL table with one foreign key has the two-field
`referred_table`/`constrained_columns` record. -/
theorem c8_witness :
    dlookup "T" (introspection_1.MySQLIntrospector.get_tables
      { emptyMySQL with
        table_names := ["T"]
        foreign_keys := fun _ =>
          [{ referred_table := "R", referred_schema := none,
             constrained_columns := ["c"] }] }) =
      some { type := "table", columns := [], primary_key := [],
             foreign_keys := [[("referred_table", PyVal.str "R"),
                               ("constrained_columns", PyVal.arr [PyVal.str "c"])]] } ∧
    dkeys [("referred_table", PyVal.str "R"),
           ("constrained_columns", PyVal.arr [PyVal.str "c"])] =
      ["referred_table", "constrained_columns"] :=
  ⟨rfl,
    (c8_fk_record_fields
      { emptyMySQL with
        table_names := ["T"]
        foreign_keys := fun _ =>
          [{ referred_table := "R", referred_schema := none,
             constrained_columns := ["c"] }] } emptyMSSQL).1 "T"
      { type := "table", columns := [], primary_key := [],
        foreign_keys := [[("referred_table", PyVal.str "R"),
                          ("constrained_columns", PyVal.arr [PyVal.str "c"])]] }
      rfl
      [("referred_table", PyVal.str "R"),
       ("constrained_columns", PyVal.arr [PyVal.str "c"])]
      (by simp)⟩
